import Mathlib

/-!
Shallow embedding of `src/dots/.config/hypr/scripts/smartfloat.py`
(the Smart Float Manager for Hyprland).

Modelling conventions:
* Python integers are `ℤ`; Python floats are modelled as exact rationals `ℚ`
  plus the special values `inf`, `-inf`, `nan`.  IEEE rounding of individual
  float operations is not modelled (the arithmetic on finite values is exact);
  a numeric *literal* whose exact value is at least `2^1024` is modelled as
  `inf`, matching Python's parsing of out-of-range float literals such as
  `1e400`.  Conversion of an out-of-range Python `int` to `float`
  (`float(10**500)`) is modelled as raising `OverflowError`, as in Python.
* A Python expression string is parsed by a tokenizer and recursive-descent
  parser covering the fragment of Python's `eval`-mode grammar relevant to
  `smartfloat.py`: numeric literals (with Python's leading-zero rule for
  decimal integer literals), string literals, identifiers, calls,
  the operators `+ - * / // % ** << >> & | ^`, unary `+ -`, and parentheses.
  Any other input makes the parse fail, which the program treats exactly like
  a Python `SyntaxError` (evaluation yields "no value").
* Uncaught Python exceptions are modelled with `Except String`; the string
  names the exception class.
* Python string operations on the arguments used by this program are
  ASCII-only (window addresses, preset text), and `str.lower` is modelled on
  the ASCII range.
-/

/-- A Python runtime value as used by the evaluator: `int`, `float`
(finite / `inf` / `-inf` / `nan`) or `str`. -/
inductive PyVal where
  | intV : ℤ → PyVal
  | fltV : ℚ → PyVal
  | infV : PyVal
  | ninfV : PyVal
  | nanV : PyVal
  | strV : String → PyVal
  deriving DecidableEq, Repr

/-- Binary operator AST nodes (`ast.Add`, `ast.Sub`, ..., `ast.RShift`,
plus the bitwise operators that `ALLOWED_NODES` does *not* list). -/
inductive BOp where
  | add | sub | mult | div | floordiv | modOp | pow | lshift | rshift
  | bitand | bitor | bitxor
  deriving DecidableEq, Repr

/-- Unary operator AST nodes (`ast.UAdd`, `ast.USub`, plus the ones
`ALLOWED_NODES` does not list). -/
inductive UOp where
  | uadd | usub | invert
  deriving DecidableEq, Repr

/-- Python `eval`-mode expression AST (the node kinds relevant to
`safe_eval`'s walk: constants, bin/unary ops, names, calls, comparisons,
conditional expressions). -/
inductive PyExpr where
  | constE : PyVal → PyExpr
  | nameE : String → PyExpr
  | binE : BOp → PyExpr → PyExpr → PyExpr
  | unE : UOp → PyExpr → PyExpr
  | callE : PyExpr → List PyExpr → PyExpr
  | compareE : PyExpr → PyExpr → PyExpr
  | ifExpE : PyExpr → PyExpr → PyExpr → PyExpr
  deriving Repr

/-- Is this binary operator's AST node in `ALLOWED_NODES`?
The source lists `Add, Sub, Mult, Div, Pow, Mod, FloorDiv, LShift, RShift`
(bitwise and/or/xor are absent). -/
def allowedBOp : BOp → Bool
  | .add | .sub | .mult | .div | .floordiv | .modOp | .pow
  | .lshift | .rshift => true
  | .bitand | .bitor | .bitxor => false

/-- Is this unary operator's AST node in `ALLOWED_NODES`
(`USub`, `UAdd`; `Invert` is absent)? -/
def allowedUOp : UOp → Bool
  | .uadd | .usub => true
  | .invert => false

/-- The `for n in ast.walk(node): if not isinstance(n, ALLOWED_NODES)` check
of `safe_eval`: `true` iff every node of the tree is an instance of
`ALLOWED_NODES` (`Expression`, `BinOp`, `UnaryOp`, `Num`/`Constant` and the
allowed operator nodes).  `Name`, `Call`, `Compare` and `IfExp` nodes are not
allowed; a `Call` node is disallowed by itself, so its children need not be
visited to decide the result. -/
def walkAllowed : PyExpr → Bool
  | .constE _ => true
  | .binE op l r => allowedBOp op && walkAllowed l && walkAllowed r
  | .unE op e => allowedUOp op && walkAllowed e
  | .nameE _ => false
  | .callE _ _ => false
  | .compareE _ _ => false
  | .ifExpE _ _ _ => false

/-- Finite numeric value of a `PyVal` (0 for non-finite / non-numeric;
only used after the shape has been matched). -/
def PyVal.toQ : PyVal → ℚ
  | .intV n => (n : ℚ)
  | .fltV q => q
  | _ => 0

/-- Python addition on runtime values (`TypeError` for strings mixed with
numbers; `inf + -inf = nan`; exact arithmetic on finite values). -/
def pyAdd : PyVal → PyVal → Except String PyVal
  | .strV _, _ => .error "TypeError"
  | _, .strV _ => .error "TypeError"
  | .nanV, _ => .ok .nanV
  | _, .nanV => .ok .nanV
  | .infV, .ninfV => .ok .nanV
  | .ninfV, .infV => .ok .nanV
  | .infV, _ => .ok .infV
  | _, .infV => .ok .infV
  | .ninfV, _ => .ok .ninfV
  | _, .ninfV => .ok .ninfV
  | .intV a, .intV b => .ok (.intV (a + b))
  | a, b => .ok (.fltV (a.toQ + b.toQ))

/-- Python unary negation. -/
def pyNeg : PyVal → Except String PyVal
  | .strV _ => .error "TypeError"
  | .nanV => .ok .nanV
  | .infV => .ok .ninfV
  | .ninfV => .ok .infV
  | .intV a => .ok (.intV (-a))
  | .fltV q => .ok (.fltV (-q))

/-- Python unary plus. -/
def pyPos : PyVal → Except String PyVal
  | .strV _ => .error "TypeError"
  | v => .ok v

/-- Python subtraction, via `a + (-b)` (same value semantics). -/
def pySub (a b : PyVal) : Except String PyVal := do
  let nb ← pyNeg b
  pyAdd a nb

/-- Python multiplication on numeric values (string repetition is not
modelled: no preset expression relies on it; `0 * inf = nan`). -/
def pyMul : PyVal → PyVal → Except String PyVal
  | .strV _, _ => .error "TypeError"
  | _, .strV _ => .error "TypeError"
  | .nanV, _ => .ok .nanV
  | _, .nanV => .ok .nanV
  | .intV a, .intV b => .ok (.intV (a * b))
  | .infV, b => .ok (if b.toQ > 0 then .infV else if b.toQ < 0 then .ninfV else .nanV)
  | .ninfV, b => .ok (if b.toQ > 0 then .ninfV else if b.toQ < 0 then .infV else .nanV)
  | a, .infV => .ok (if a.toQ > 0 then .infV else if a.toQ < 0 then .ninfV else .nanV)
  | a, .ninfV => .ok (if a.toQ > 0 then .ninfV else if a.toQ < 0 then .infV else .nanV)
  | a, b => .ok (.fltV (a.toQ * b.toQ))

/-- Python true division `/` (always float-valued; division by a zero
finite divisor raises `ZeroDivisionError`, as for both `int` and `float`
operands in Python). -/
def pyDiv : PyVal → PyVal → Except String PyVal
  | .strV _, _ => .error "TypeError"
  | _, .strV _ => .error "TypeError"
  | _, .intV 0 => .error "ZeroDivisionError"
  | a, .fltV q => if q = 0 then .error "ZeroDivisionError" else
      match a with
      | .nanV => .ok .nanV
      | .infV => .ok (if q > 0 then .infV else .ninfV)
      | .ninfV => .ok (if q > 0 then .ninfV else .infV)
      | a => .ok (.fltV (a.toQ / q))
  | .nanV, _ => .ok .nanV
  | _, .nanV => .ok .nanV
  | .infV, .infV => .ok .nanV
  | .infV, .ninfV => .ok .nanV
  | .ninfV, .infV => .ok .nanV
  | .ninfV, .ninfV => .ok .nanV
  | _, .infV => .ok (.fltV 0)
  | _, .ninfV => .ok (.fltV 0)
  | .infV, .intV b => .ok (if (b : ℚ) > 0 then .infV else .ninfV)
  | .ninfV, .intV b => .ok (if (b : ℚ) > 0 then .ninfV else .infV)
  | a, .intV b => .ok (.fltV (a.toQ / (b : ℚ)))

/-- Python floor division `//` (`ZeroDivisionError` on a zero divisor;
`Int.fdiv` matches Python's floor semantics; non-finite operands are
modelled coarsely as `nan`). -/
def pyFloorDiv : PyVal → PyVal → Except String PyVal
  | .strV _, _ => .error "TypeError"
  | _, .strV _ => .error "TypeError"
  | _, .intV 0 => .error "ZeroDivisionError"
  | _, .fltV 0 => .error "ZeroDivisionError"
  | .intV a, .intV b => .ok (.intV (Int.fdiv a b))
  | .fltV a, .intV b => .ok (.fltV ((a / (b : ℚ)).floor : ℤ))
  | .intV a, .fltV b => .ok (.fltV (((a : ℚ) / b).floor : ℤ))
  | .fltV a, .fltV b => .ok (.fltV ((a / b).floor : ℤ))
  | _, _ => .ok .nanV

/-- Python modulo `%` (sign follows the divisor: `Int.fmod`;
`ZeroDivisionError` on a zero divisor; non-finite operands as `nan`). -/
def pyMod : PyVal → PyVal → Except String PyVal
  | .strV _, _ => .error "TypeError"
  | _, .strV _ => .error "TypeError"
  | _, .intV 0 => .error "ZeroDivisionError"
  | _, .fltV 0 => .error "ZeroDivisionError"
  | .intV a, .intV b => .ok (.intV (Int.fmod a b))
  | .fltV a, .intV b => .ok (.fltV (a - (b : ℚ) * ((a / (b : ℚ)).floor : ℤ)))
  | .intV a, .fltV b => .ok (.fltV ((a : ℚ) - b * (((a : ℚ) / b).floor : ℤ)))
  | .fltV a, .fltV b => .ok (.fltV (a - b * ((a / b).floor : ℤ)))
  | _, _ => .ok .nanV

/-- Python exponentiation `**`.  `int ** nonneg int` stays `int`;
an integral negative exponent gives an exact rational float
(`0 ** negative` raises `ZeroDivisionError`).  A non-integral exponent
would need real-number semantics and is modelled as an error; no
expression of this program uses one.  Non-finite operands as `nan`. -/
def pyPow : PyVal → PyVal → Except String PyVal
  | .strV _, _ => .error "TypeError"
  | _, .strV _ => .error "TypeError"
  | .intV a, .intV b =>
      if 0 ≤ b then .ok (.intV (a ^ b.toNat))
      else if a = 0 then .error "ZeroDivisionError"
      else .ok (.fltV (1 / ((a : ℚ) ^ (-b).toNat)))
  | .fltV a, .intV b =>
      if 0 ≤ b then .ok (.fltV (a ^ b.toNat))
      else if a = 0 then .error "ZeroDivisionError"
      else .ok (.fltV (1 / (a ^ (-b).toNat)))
  | .intV a, .fltV b =>
      if b.den = 1 then
        (if 0 ≤ b.num then .ok (.fltV ((a : ℚ) ^ b.num.toNat))
         else if a = 0 then .error "ZeroDivisionError"
         else .ok (.fltV (1 / ((a : ℚ) ^ (-b.num).toNat))))
      else .error "RealPowNotModelled"
  | .fltV a, .fltV b =>
      if b.den = 1 then
        (if 0 ≤ b.num then .ok (.fltV (a ^ b.num.toNat))
         else if a = 0 then .error "ZeroDivisionError"
         else .ok (.fltV (1 / (a ^ (-b.num).toNat))))
      else .error "RealPowNotModelled"
  | _, _ => .ok .nanV

/-- Python left shift `<<`: integers only (`TypeError` otherwise),
negative shift count raises `ValueError`. -/
def pyLsh : PyVal → PyVal → Except String PyVal
  | .intV a, .intV b =>
      if b < 0 then .error "ValueError" else .ok (.intV (a * 2 ^ b.toNat))
  | _, _ => .error "TypeError"

/-- Python right shift `>>`: arithmetic (floor) shift on integers. -/
def pyRsh : PyVal → PyVal → Except String PyVal
  | .intV a, .intV b =>
      if b < 0 then .error "ValueError" else .ok (.intV (Int.fdiv a (2 ^ b.toNat)))
  | _, _ => .error "TypeError"

/-- Dispatch a binary operator to its Python semantics.  The bitwise
operators never reach evaluation in `safe_eval` (the walk rejects them
first); they are modelled as integer ops for totality. -/
def binEval : BOp → PyVal → PyVal → Except String PyVal
  | .add, a, b => pyAdd a b
  | .sub, a, b => pySub a b
  | .mult, a, b => pyMul a b
  | .div, a, b => pyDiv a b
  | .floordiv, a, b => pyFloorDiv a b
  | .modOp, a, b => pyMod a b
  | .pow, a, b => pyPow a b
  | .lshift, a, b => pyLsh a b
  | .rshift, a, b => pyRsh a b
  | .bitand, _, _ => .error "NotReached"
  | .bitor, _, _ => .error "NotReached"
  | .bitxor, _, _ => .error "NotReached"

/-- Dispatch a unary operator. -/
def unEval : UOp → PyVal → Except String PyVal
  | .usub, a => pyNeg a
  | .uadd, a => pyPos a
  | .invert, _ => .error "NotReached"

/-- Evaluate a Python expression AST, as CPython's `eval` would on the
compiled tree (left operand first, errors propagate).  `Name` lookups fail
with `NameError` because `safe_eval` evaluates with empty globals/locals
(`{"__builtins__": {}}, {}`); calls/comparisons/conditionals never reach
evaluation in this program because the walk rejects them first. -/
def pyEval : PyExpr → Except String PyVal
  | .constE v => .ok v
  | .binE op l r => do
      let a ← pyEval l
      let b ← pyEval r
      binEval op a b
  | .unE op e => do
      let a ← pyEval e
      unEval op a
  | .nameE _ => .error "NameError"
  | .callE _ _ => .error "NotReached"
  | .compareE _ _ => .error "NotReached"
  | .ifExpE _ _ _ => .error "NotReached"

/-- The Python float overflow bound: a value of magnitude `≥ 2^1024`
cannot be represented as a `float`. -/
def floatMax : ℚ := 2 ^ 1024

/-- The `float(value)` call at the end of `safe_eval`.  An `int` of
magnitude `≥ 2^1024` raises `OverflowError`; a finite float stays itself
(the identity on floats); `float(str)` is modelled as an error — the only
strings reaching this point come from string-constant arithmetic, which no
preset expression of the claims uses. -/
def pyFloat : PyVal → Except String PyVal
  | .intV n =>
      if (n : ℚ) ≤ -floatMax ∨ floatMax ≤ (n : ℚ) then .error "OverflowError"
      else .ok (.fltV (n : ℚ))
  | .fltV q => .ok (.fltV q)
  | .infV => .ok .infV
  | .ninfV => .ok .ninfV
  | .nanV => .ok .nanV
  | .strV _ => .error "StrFloatNotModelled"

/-- Tokens of the Python expression fragment the program can feed to
`ast.parse` (arithmetic, shifts, bitwise ops, parentheses, names, calls,
string literals). -/
inductive Tok where
  | num : PyVal → Tok
  | ident : String → Tok
  | strTok : String → Tok
  | plus | minus | star | dstar | slash | dslash | percentT
  | lshT | rshT | ampT | pipeT | caretT
  | lparen | rparen | commaT
  deriving DecidableEq, Repr

/-- ASCII decimal digit test (Python's number tokenizer). -/
def isDig (c : Char) : Bool := '0' ≤ c && c ≤ '9'

/-- Python identifier character (`[A-Za-z0-9_]`, ASCII fragment). -/
def isWordChar (c : Char) : Bool :=
  ('a' ≤ c && c ≤ 'z') || ('A' ≤ c && c ≤ 'Z') || isDig c || c = '_'

/-- Python identifier start character. -/
def isIdentStart (c : Char) : Bool :=
  ('a' ≤ c && c ≤ 'z') || ('A' ≤ c && c ≤ 'Z') || c = '_'

/-- Python whitespace recognized by `str.strip` and the tokenizer. -/
def isPySpace (c : Char) : Bool :=
  c = ' ' || c = '\t' || c = '\n' || c = '\x0d' || c = '\x0b' || c = '\x0c'

/-- Numeric value of a list of ASCII digits. -/
def digitsToNat (ds : List Char) : ℕ :=
  ds.foldl (fun acc c => acc * 10 + (c.toNat - '0'.toNat)) 0

/-- Read one Python numeric literal starting at `l` (which begins with a
digit, or with `'.'` followed by a digit).  Returns the token value and the
rest of the input, or `none` for a literal Python rejects: a decimal integer
literal with a leading zero (`012`), or an exponent marker without digits
(`1e`).  A float literal whose exact value reaches `2^1024` becomes `inf`,
as in Python. -/
def readNumber (l : List Char) : Option (PyVal × List Char) :=
  let (d1, r1) := l.span isDig
  let (hasDot, d2, r2) :=
    match r1 with
    | '.' :: rest => (true, (rest.span isDig).1, (rest.span isDig).2)
    | _ => (false, [], r1)
  if d1 = [] ∧ (¬ hasDot ∨ d2 = []) then none
  else
    let (hasExp, expNeg, d3, r3) :=
      match r2 with
      | 'e' :: '+' :: rest => (true, false, (rest.span isDig).1, (rest.span isDig).2)
      | 'e' :: '-' :: rest => (true, true, (rest.span isDig).1, (rest.span isDig).2)
      | 'e' :: rest => (true, false, (rest.span isDig).1, (rest.span isDig).2)
      | 'E' :: '+' :: rest => (true, false, (rest.span isDig).1, (rest.span isDig).2)
      | 'E' :: '-' :: rest => (true, true, (rest.span isDig).1, (rest.span isDig).2)
      | 'E' :: rest => (true, false, (rest.span isDig).1, (rest.span isDig).2)
      | _ => (false, false, [], r2)
    if hasExp ∧ d3 = [] then none
    else if ¬ hasDot ∧ ¬ hasExp then
      -- decimal integer literal: leading zeros only allowed on a zero value
      if d1.head? = some '0' ∧ ¬ d1.all (· = '0') then none
      else some (.intV (digitsToNat d1), r1)
    else
      let mant : ℚ := (digitsToNat d1 : ℚ) + (digitsToNat d2 : ℚ) / (10 : ℚ) ^ d2.length
      let q : ℚ :=
        if hasExp then
          (if expNeg then mant / (10 : ℚ) ^ digitsToNat d3
           else mant * (10 : ℚ) ^ digitsToNat d3)
        else mant
      some (if floatMax ≤ q then .infV else .fltV q, r3)

/-- Tokenize a character list into Python tokens; `none` models a Python
`SyntaxError` while tokenizing (stray characters, bad literals,
unterminated strings).  `fuel` only bounds recursion and is set to the
input length plus one by the caller. -/
def tokenize : ℕ → List Char → Option (List Tok)
  | 0, _ => none
  | _, [] => some []
  | fuel + 1, c :: rest =>
    if isPySpace c then tokenize fuel rest
    else if isDig c then
      match readNumber (c :: rest) with
      | some (v, r) => do pure ((.num v) :: (← tokenize fuel r))
      | none => none
    else if c = '.' then
      match rest.head? with
      | some d =>
        if isDig d then
          match readNumber (c :: rest) with
          | some (v, r) => do pure ((.num v) :: (← tokenize fuel r))
          | none => none
        else none
      | none => none
    else if isIdentStart c then
      let (w, r) := (c :: rest).span isWordChar
      do pure ((.ident (String.mk w)) :: (← tokenize fuel r))
    else if c = '\x27' then
      -- single-quoted string literal (escape sequences are not modelled)
      let (s, r) := rest.span (fun d => d ≠ '\x27' ∧ d ≠ '\\')
      match r with
      | q :: r2 => if q = '\x27' then do pure ((.strTok (String.mk s)) :: (← tokenize fuel r2)) else none
      | [] => none
    else if c = '*' then
      match rest with
      | '*' :: r => do pure (Tok.dstar :: (← tokenize fuel r))
      | _ => do pure (Tok.star :: (← tokenize fuel rest))
    else if c = '/' then
      match rest with
      | '/' :: r => do pure (Tok.dslash :: (← tokenize fuel r))
      | _ => do pure (Tok.slash :: (← tokenize fuel rest))
    else if c = '<' then
      match rest with
      | '<' :: r => do pure (Tok.lshT :: (← tokenize fuel r))
      | _ => none
    else if c = '>' then
      match rest with
      | '>' :: r => do pure (Tok.rshT :: (← tokenize fuel r))
      | _ => none
    else if c = '+' then do pure (Tok.plus :: (← tokenize fuel rest))
    else if c = '-' then do pure (Tok.minus :: (← tokenize fuel rest))
    else if c = '%' then do pure (Tok.percentT :: (← tokenize fuel rest))
    else if c = '&' then do pure (Tok.ampT :: (← tokenize fuel rest))
    else if c = '|' then do pure (Tok.pipeT :: (← tokenize fuel rest))
    else if c = '^' then do pure (Tok.caretT :: (← tokenize fuel rest))
    else if c = '(' then do pure (Tok.lparen :: (← tokenize fuel rest))
    else if c = ')' then do pure (Tok.rparen :: (← tokenize fuel rest))
    else if c = ',' then do pure (Tok.commaT :: (← tokenize fuel rest))
    else none

mutual

/-- Parse the `|` precedence level (Python's lowest among the operators
this fragment covers), left-associative. -/
def parseOrE : ℕ → List Tok → Option (PyExpr × List Tok)
  | 0, _ => none
  | fuel + 1, ts => do
    let (a, r) ← parseXorE fuel ts
    parseOrLoop fuel a r

/-- Left-associative continuation for `|`. -/
def parseOrLoop : ℕ → PyExpr → List Tok → Option (PyExpr × List Tok)
  | 0, _, _ => none
  | fuel + 1, a, ts =>
    match ts with
    | .pipeT :: r => do
      let (b, r2) ← parseXorE fuel r
      parseOrLoop fuel (.binE .bitor a b) r2
    | _ => some (a, ts)

/-- Parse the `^` level. -/
def parseXorE : ℕ → List Tok → Option (PyExpr × List Tok)
  | 0, _ => none
  | fuel + 1, ts => do
    let (a, r) ← parseAndE fuel ts
    parseXorLoop fuel a r

/-- Left-associative continuation for `^`. -/
def parseXorLoop : ℕ → PyExpr → List Tok → Option (PyExpr × List Tok)
  | 0, _, _ => none
  | fuel + 1, a, ts =>
    match ts with
    | .caretT :: r => do
      let (b, r2) ← parseAndE fuel r
      parseXorLoop fuel (.binE .bitxor a b) r2
    | _ => some (a, ts)

/-- Parse the `&` level. -/
def parseAndE : ℕ → List Tok → Option (PyExpr × List Tok)
  | 0, _ => none
  | fuel + 1, ts => do
    let (a, r) ← parseShiftE fuel ts
    parseAndLoop fuel a r

/-- Left-associative continuation for `&`. -/
def parseAndLoop : ℕ → PyExpr → List Tok → Option (PyExpr × List Tok)
  | 0, _, _ => none
  | fuel + 1, a, ts =>
    match ts with
    | .ampT :: r => do
      let (b, r2) ← parseShiftE fuel r
      parseAndLoop fuel (.binE .bitand a b) r2
    | _ => some (a, ts)

/-- Parse the `<< >>` level. -/
def parseShiftE : ℕ → List Tok → Option (PyExpr × List Tok)
  | 0, _ => none
  | fuel + 1, ts => do
    let (a, r) ← parseAddE fuel ts
    parseShiftLoop fuel a r

/-- Left-associative continuation for `<< >>`. -/
def parseShiftLoop : ℕ → PyExpr → List Tok → Option (PyExpr × List Tok)
  | 0, _, _ => none
  | fuel + 1, a, ts =>
    match ts with
    | .lshT :: r => do
      let (b, r2) ← parseAddE fuel r
      parseShiftLoop fuel (.binE .lshift a b) r2
    | .rshT :: r => do
      let (b, r2) ← parseAddE fuel r
      parseShiftLoop fuel (.binE .rshift a b) r2
    | _ => some (a, ts)

/-- Parse the `+ -` level. -/
def parseAddE : ℕ → List Tok → Option (PyExpr × List Tok)
  | 0, _ => none
  | fuel + 1, ts => do
    let (a, r) ← parseMulE fuel ts
    parseAddLoop fuel a r

/-- Left-associative continuation for `+ -`. -/
def parseAddLoop : ℕ → PyExpr → List Tok → Option (PyExpr × List Tok)
  | 0, _, _ => none
  | fuel + 1, a, ts =>
    match ts with
    | .plus :: r => do
      let (b, r2) ← parseMulE fuel r
      parseAddLoop fuel (.binE .add a b) r2
    | .minus :: r => do
      let (b, r2) ← parseMulE fuel r
      parseAddLoop fuel (.binE .sub a b) r2
    | _ => some (a, ts)

/-- Parse the `* / // %` level. -/
def parseMulE : ℕ → List Tok → Option (PyExpr × List Tok)
  | 0, _ => none
  | fuel + 1, ts => do
    let (a, r) ← parseUnaryE fuel ts
    parseMulLoop fuel a r

/-- Left-associative continuation for `* / // %`. -/
def parseMulLoop : ℕ → PyExpr → List Tok → Option (PyExpr × List Tok)
  | 0, _, _ => none
  | fuel + 1, a, ts =>
    match ts with
    | .star :: r => do
      let (b, r2) ← parseUnaryE fuel r
      parseMulLoop fuel (.binE .mult a b) r2
    | .slash :: r => do
      let (b, r2) ← parseUnaryE fuel r
      parseMulLoop fuel (.binE .div a b) r2
    | .dslash :: r => do
      let (b, r2) ← parseUnaryE fuel r
      parseMulLoop fuel (.binE .floordiv a b) r2
    | .percentT :: r => do
      let (b, r2) ← parseUnaryE fuel r
      parseMulLoop fuel (.binE .modOp a b) r2
    | _ => some (a, ts)

/-- Parse Python's `u_expr`: unary `+`/`-` chains bind looser than `**` on
its left operand (`-2**2` is `-(2**2)` but `2**-1` is `2**(-1)`). -/
def parseUnaryE : ℕ → List Tok → Option (PyExpr × List Tok)
  | 0, _ => none
  | fuel + 1, ts =>
    match ts with
    | .minus :: r => do
      let (a, r2) ← parseUnaryE fuel r
      pure (PyExpr.unE .usub a, r2)
    | .plus :: r => do
      let (a, r2) ← parseUnaryE fuel r
      pure (PyExpr.unE .uadd a, r2)
    | _ => parsePowerE fuel ts

/-- Parse Python's `power`: an atom, optionally raised via `**` to a
`u_expr` (right-associative). -/
def parsePowerE : ℕ → List Tok → Option (PyExpr × List Tok)
  | 0, _ => none
  | fuel + 1, ts => do
    let (a, r) ← parseAtomE fuel ts
    match r with
    | .dstar :: r2 => do
      let (b, r3) ← parseUnaryE fuel r2
      pure (PyExpr.binE .pow a b, r3)
    | _ => some (a, r)

/-- Parse an atom: literal, parenthesized expression, or a name with an
optional call-argument suffix (the only call form this fragment needs). -/
def parseAtomE : ℕ → List Tok → Option (PyExpr × List Tok)
  | 0, _ => none
  | fuel + 1, ts =>
    match ts with
    | .num v :: r => some (.constE v, r)
    | .strTok s :: r => some (.constE (.strV s), r)
    | .ident n :: .lparen :: r => do
      let (args, r2) ← parseArgsE fuel r
      pure (PyExpr.callE (.nameE n) args, r2)
    | .ident n :: r => some (.nameE n, r)
    | .lparen :: r => do
      let (a, r2) ← parseOrE fuel r
      match r2 with
      | .rparen :: r3 => some (a, r3)
      | _ => none
    | _ => none

/-- Parse a call's argument list up to and including the closing
parenthesis. -/
def parseArgsE : ℕ → List Tok → Option (List PyExpr × List Tok)
  | 0, _ => none
  | fuel + 1, ts =>
    match ts with
    | .rparen :: r => some ([], r)
    | _ => do
      let (a, r) ← parseOrE fuel ts
      match r with
      | .rparen :: r2 => some ([a], r2)
      | .commaT :: r2 => do
        let (as, r3) ← parseArgsE fuel r2
        pure (a :: as, r3)
      | _ => none

end

/-- `ast.parse(expr, mode='eval')`: tokenize and parse a complete
expression; `none` models `SyntaxError` (including trailing input). -/
def parseAst (s : String) : Option PyExpr := do
  let toks ← tokenize (s.data.length + 1) s.data
  let (e, rest) ← parseOrE ((toks.length + 1) * 12) toks
  if rest = [] then some e else none

/-- `safe_eval`, instrumented with whether the `eval(compile(...))` step was
reached: parse, reject by walking the AST *before* any evaluation, then
evaluate and convert to `float`, catching every evaluation exception.
Returns `(result, evaluation attempted)`. -/
def safeEvalT (s : String) : Option PyVal × Bool :=
  match parseAst s with
  | none => (none, false)
  | some e =>
    if walkAllowed e then
      match pyEval e with
      | .error _ => (none, true)
      | .ok v =>
        match pyFloat v with
        | .error _ => (none, true)
        | .ok f => (some f, true)
    else (none, false)

/-- `safe_eval`'s return value (`None` is `none`). -/
def safeEval (s : String) : Option PyVal := (safeEvalT s).1

/-- Python `str.strip()` on a character list (both ends, Python whitespace). -/
def pyStrip (l : List Char) : List Char :=
  ((l.dropWhile isPySpace).reverse.dropWhile isPySpace).reverse

/-- ASCII lowering of one character, as Python `str.lower` acts on the
ASCII range (the only range window addresses and preset text use). -/
def pyLowerChar (c : Char) : Char :=
  if 65 ≤ c.toNat ∧ c.toNat ≤ 90 then Char.ofNat (c.toNat + 32) else c

/-- Python `str.lower` (ASCII fragment). -/
def pyLower (s : String) : String := String.mk (s.data.map pyLowerChar)

/-- Python `str.startswith` (a full-prefix test, case-sensitive). -/
def pyStartswith (s pre : String) : Bool := pre.data.isPrefixOf s.data

/-- Python `round` on an exact value followed by `int()`: round half to
even (banker's rounding), returning an integer. -/
def pyRound (q : ℚ) : ℤ :=
  let f : ℤ := q.floor
  let r : ℚ := q - (f : ℚ)
  if r < 1 / 2 then f
  else if 1 / 2 < r then f + 1
  else if f % 2 = 0 then f else f + 1

/-- Match `([0-9]+(?:\.[0-9]+)?)` at the head of the input: one or more
digits, optionally a dot followed by one or more digits.  Returns the
matched value as an exact rational and the rest of the input. -/
def decimalNum (l : List Char) : Option (ℚ × List Char) :=
  let (d1, r1) := l.span isDig
  if d1 = [] then none
  else
    match r1 with
    | '.' :: rest =>
      let (d2, r2) := rest.span isDig
      if d2 = [] then some ((digitsToNat d1 : ℚ), r1)
      else some ((digitsToNat d1 : ℚ) + (digitsToNat d2 : ℚ) / (10 : ℚ) ^ d2.length, r2)
    | _ => some ((digitsToNat d1 : ℚ), r1)

/-- `re.fullmatch(r"right-([0-9]+(?:\.[0-9]+)?)%", expr)`: the percentage
captured by the `right-N%` shorthand, if the whole input matches. -/
def rightPctMatch (l : List Char) : Option ℚ :=
  match l with
  | 'r' :: 'i' :: 'g' :: 'h' :: 't' :: '-' :: rest =>
    match decimalNum rest with
    | some (q, ['%']) => some q
    | _ => none
  | _ => none

/-- `re.fullmatch(r"bottom-([0-9]+(?:\.[0-9]+)?)%", expr)`. -/
def bottomPctMatch (l : List Char) : Option ℚ :=
  match l with
  | 'b' :: 'o' :: 't' :: 't' :: 'o' :: 'm' :: '-' :: rest =>
    match decimalNum rest with
    | some (q, ['%']) => some q
    | _ => none
  | _ => none

/-- `re.fullmatch(r"([0-9]+(?:\.[0-9]+)?)%", expr)`: a bare percentage. -/
def pctMatch (l : List Char) : Option ℚ :=
  match decimalNum l with
  | some (q, ['%']) => some q
  | _ => none

/-- `re.fullmatch(r"([0-9]+)", expr)` followed by `int(...)`: a bare
digit string (leading zeros allowed by `int()`). -/
def intMatch (l : List Char) : Option ℤ :=
  if l ≠ [] ∧ l.all isDig then some ((digitsToNat l : ℤ)) else none

/-- `str(n)` for a Python int. -/
def intRepr (n : ℤ) : List Char := (toString n).data

/-- `re.sub(r'([0-9]+(?:\.[0-9]+)?)%', pct_repl, tmp)`: replace every
percentage literal `N%` by `(N/100*{mon_dim})`.  The scanner consumes a
maximal digit run with optional fraction at each position; if it is not
followed by `%` the run is emitted verbatim and scanning resumes after it
(no match of the pattern can start inside such a run, since a match would
need a `%` inside or right after the run). -/
def pctSub : ℕ → List Char → ℤ → List Char
  | 0, l, _ => l
  | _ + 1, [], _ => []
  | fuel + 1, c :: rest, mon =>
    if isDig c then
      let (d1, r1) := (c :: rest).span isDig
      let (numChars, r2) :=
        match r1 with
        | '.' :: r =>
          let (d2, rr) := r.span isDig
          if d2 = [] then (d1, r1) else (d1 ++ '.' :: d2, rr)
        | _ => (d1, r1)
      match r2 with
      | '%' :: r3 =>
        '(' :: (numChars ++ ('/' :: '1' :: '0' :: '0' :: '*' :: intRepr mon) ++ [')'])
          ++ pctSub fuel r3 mon
      | _ => numChars ++ pctSub fuel r2 mon
    else c :: pctSub fuel rest mon

/-- `re.sub(r'\bwidth\b', str(win_dim), tmp)` (and the same for `height`):
replace each whole-word occurrence of `word` by `repl`.  Word boundaries
are judged against the original string (`re.sub` matches on the input and
never rescans replacements), so the scanner tracks the previous original
character. -/
def wordSub (word repl : List Char) : ℕ → Option Char → List Char → List Char
  | 0, _, l => l
  | _ + 1, _, [] => []
  | fuel + 1, prev, c :: rest =>
    if word.isPrefixOf (c :: rest)
        && (match prev with | some p => ! isWordChar p | none => true)
        && (match (c :: rest).drop word.length with
            | [] => true
            | n :: _ => ! isWordChar n) then
      repl ++ wordSub word repl fuel word.getLast? ((c :: rest).drop word.length)
    else
      c :: wordSub word repl fuel (some c) rest

/-- The generic-expression branch of `compute_px`: rewrite percentages,
then substitute `width` and `height`, evaluate with `safe_eval`, and round
— `int(round(val))` raises `OverflowError` on an infinite value and
`ValueError` on `nan` (it sits outside any `try`). -/
def computePxGeneric (l : List Char) (monDim winDim : ℤ) : Except String (Option ℤ) :=
  let t1 := pctSub (l.length + 1) l monDim
  let t2 := wordSub "width".data (intRepr winDim) (t1.length + 1) none t1
  let t3 := wordSub "height".data (intRepr winDim) (t2.length + 1) none t2
  match safeEval (String.mk t3) with
  | none => .ok none
  | some v =>
    match v with
    | .fltV q => .ok (some (pyRound q))
    | .intV n => .ok (some (pyRound (n : ℚ)))
    | .infV => .error "OverflowError"
    | .ninfV => .error "OverflowError"
    | .nanV => .error "ValueError"
    | .strV _ => .error "NotReached"

/-- Stage: `re.fullmatch(r"([0-9]+)", expr)` — a plain pixel integer. -/
def computePxInt (l : List Char) (monDim winDim : ℤ) : Except String (Option ℤ) :=
  match intMatch l with
  | some n => .ok (some n)
  | none => computePxGeneric l monDim winDim

/-- Stage: a plain percentage `N%` of the monitor dimension. -/
def computePxPct (l : List Char) (monDim winDim : ℤ) : Except String (Option ℤ) :=
  match pctMatch l with
  | some pct => .ok (some (pyRound (pct / 100 * (monDim : ℚ))))
  | none => computePxInt l monDim winDim

/-- Stage: the `bottom-N%` shorthand, honored only for axis `"y"`. -/
def computePxBottom (l : List Char) (axis : String) (monDim winDim : ℤ) :
    Except String (Option ℤ) :=
  match bottomPctMatch l with
  | some pct =>
    if axis = "y" then
      .ok (some (pyRound (((monDim : ℚ) - (winDim : ℚ)) - pct / 100 * (monDim : ℚ))))
    else computePxPct l monDim winDim
  | none => computePxPct l monDim winDim

/-- Stage: the `right-N%` shorthand, honored only for axis `"x"`. -/
def computePxRight (l : List Char) (axis : String) (monDim winDim : ℤ) :
    Except String (Option ℤ) :=
  match rightPctMatch l with
  | some pct =>
    if axis = "x" then
      .ok (some (pyRound (((monDim : ℚ) - (winDim : ℚ)) - pct / 100 * (monDim : ℚ))))
    else computePxBottom l axis monDim winDim
  | none => computePxBottom l axis monDim winDim

/-- `compute_px(expr, axis, mon_dim, win_dim)`: `None` or empty input is
"no value"; otherwise strip, recognize the `width`/`height` tokens, try
the shorthand and literal forms, and fall through to the generic sandboxed
evaluation.  `.error` models an uncaught Python exception escaping
`compute_px`. -/
def computePx (expr : Option String) (axis : String) (monDim winDim : ℤ) :
    Except String (Option ℤ) :=
  match expr with
  | none => .ok none
  | some e0 =>
    if e0.data = [] then .ok none
    else
      let l := pyStrip e0.data
      if l = "width".data then .ok (some winDim)
      else if l = "height".data then .ok (some (if axis = "x" then winDim else winDim))
      else computePxRight l axis monDim winDim

/-- A Python `dict` with string keys, as an insertion-ordered association
list with unique keys (assignment replaces the value in place, lookup
finds the unique entry). -/
abbrev PyDict (β : Type) := List (String × β)

/-- `d[k]` lookup (`dict.get`). -/
def dictGet {β : Type} (d : PyDict β) (k : String) : Option β :=
  match d with
  | [] => none
  | (a, b) :: t => if a = k then some b else dictGet t k

/-- `d[k] = v` assignment: replace in place, or append a new entry. -/
def dictSet {β : Type} (d : PyDict β) (k : String) (v : β) : PyDict β :=
  match d with
  | [] => [(k, v)]
  | (a, b) :: t => if a = k then (k, v) :: t else (a, b) :: dictSet t k v

/-- `d1.update(d2)`: assign every entry of `d2` into `d1`, in order. -/
def dictUpdate {β : Type} (d1 d2 : PyDict β) : PyDict β :=
  d2.foldl (fun acc kv => dictSet acc kv.1 kv.2) d1

/-- A preset is a `dict` of string fields. -/
abbrev Preset := PyDict String

/-- Match `^\[(.+)\]$` on a stripped config line and apply the inner
`.strip()`: a section header `[name]`. -/
def headerParse (line : List Char) : Option String :=
  if 3 ≤ line.length ∧ line.head? = some '[' ∧ line.getLast? = some ']' then
    some (String.mk (pyStrip (line.drop 1).dropLast))
  else none

/-- Match `^([a-zA-Z0-9_]+)\s*=\s*(.+)$` on a stripped config line and
post-process as the loader does: key `.strip().lower()`, value `.strip()`. -/
def kvParse (line : List Char) : Option (String × String) :=
  let (k, r1) := line.span isWordChar
  if k = [] then none
  else
    let r2 := r1.dropWhile isPySpace
    match r2 with
    | '=' :: r3 =>
      let v := r3.dropWhile isPySpace
      if v = [] then none
      else some (pyLower (String.mk k), String.mk (pyStrip v))
    | _ => none

/-- One line of `load_presets_from_cfg`'s loop: strip; skip blank and `#`
lines; a section header (re)sets `presets[cur] = {}`; a `key=value` line
adds to the current section when one is open. -/
def cfgStep (st : PyDict Preset × Option String) (raw : String) :
    PyDict Preset × Option String :=
  if pyStrip raw.data = [] ∨ (pyStrip raw.data).head? = some '#' then st
  else
    match headerParse (pyStrip raw.data) with
    | some name => (dictSet st.1 name [], some name)
    | none =>
      match kvParse (pyStrip raw.data) with
      | some (k, v) =>
        match st.2 with
        | some c => (dictSet st.1 c (dictSet ((dictGet st.1 c).getD []) k v), st.2)
        | none => st
      | none => st

/-- `load_presets_from_cfg`, over the file's lines. -/
def loadPresetsFromCfg (lines : List String) : PyDict Preset :=
  (lines.foldl cfgStep ([], none)).1

/-- `BUILTIN_PRESETS`. -/
def BUILTIN_PRESETS : PyDict Preset :=
  [("big", [("width", "70%"), ("height", "70%"), ("anchor", "center"), ("snap", "true")]),
   ("bottomleft", [("x", "5%"), ("y", "80%"), ("snap", "true")]),
   ("center", [("anchor", "center")])]

/-- The preset-merge of `apply_preset`: start empty, overlay the built-in
entry, then the user-config entry (config overrides built-in per key). -/
def mergedPreset (name : String) (cfg : PyDict Preset) : Preset :=
  let p0 : Preset := []
  let p1 := match dictGet BUILTIN_PRESETS name with
            | some b => dictUpdate p0 b
            | none => p0
  match dictGet cfg name with
  | some c => dictUpdate p1 c
  | none => p1

/-- Address normalization in `apply_preset`: lowercase, then prepend
`0x` unless already present. -/
def normAddrApply (s : String) : String :=
  if pyStartswith (pyLower s) "0x" then pyLower s else "0x" ++ pyLower s

/-- Address normalization in `main`'s `info` command: prepend `0x` unless
the (case-sensitive) prefix is present; the address is *not* lowercased. -/
def normAddrInfo (s : String) : String :=
  if pyStartswith s "0x" then s else "0x" ++ s

/-- A window snapshot from `hyprctl -j clients`: owning monitor id,
position `at`, and `size`. -/
structure Client where
  monitor : ℤ
  atX : ℤ
  atY : ℤ
  sizeW : ℤ
  sizeH : ℤ
  deriving DecidableEq, Repr

/-- A monitor snapshot from `hyprctl -j monitors`. -/
structure Monitor where
  id : ℤ
  x : ℤ
  y : ℤ
  width : ℤ
  height : ℤ
  deriving DecidableEq, Repr

/-- `get_monitor_by_id`: first monitor whose id matches. -/
def getMonitorById (mons : List Monitor) (mid : ℤ) : Option Monitor :=
  match mons with
  | [] => none
  | m :: t => if m.id = mid then some m else getMonitorById t mid

/-- The compositor's responses to the successive queries one
`apply_preset` run performs: the initial client fetch, the monitor list,
and the three re-fetches (after floating, after resizing, before
snapping).  The window may vanish between any two queries. -/
structure Env where
  client1 : Option Client
  monitors : List Monitor
  client2 : Option Client
  client3 : Option Client
  client4 : Option Client

/-- A dispatched `hyprctl dispatch` mutation. -/
inductive Cmd where
  | setfloating : String → Cmd
  | resizewindowpixel : ℤ → ℤ → String → Cmd
  | movewindowpixel : ℤ → ℤ → String → Cmd
  deriving DecidableEq, Repr

/-- The snap/clamp block at the end of `apply_preset`, given the already
re-fetched window: clamp the position into the monitor, and move only if
the clamped position differs. -/
def snapStep (mon : Monitor) (c : Client) (addr : String) : List Cmd :=
  let nx := max mon.x (min c.atX (mon.x + mon.width - c.sizeW))
  let ny := max mon.y (min c.atY (mon.y + mon.height - c.sizeH))
  if nx ≠ c.atX ∨ ny ≠ c.atY then [.movewindowpixel nx ny addr] else []

/-- `apply_preset`: the full fetch → float → resize → move → snap flow.
Returns the list of dispatched mutation commands in order; `.error`
models an uncaught Python exception aborting the run.  Missing lookups
return the commands dispatched so far, exactly where the code `return`s. -/
def applyPreset (addressIn : String) (presetName : String)
    (cfg : PyDict Preset) (env : Env) : Except String (List Cmd) :=
  let addr := normAddrApply addressIn
  match env.client1 with
  | none => .ok []
  | some c1 =>
    match getMonitorById env.monitors c1.monitor with
    | none => .ok []
    | some mon =>
      let preset := mergedPreset presetName cfg
      let t0 : List Cmd := [.setfloating addr]
      -- Resize amounts, if width/height provided (computed from the
      -- pre-float size); an uncaught exception propagates
      match (match dictGet preset "width" with
             | some w => computePx (some w) "x" mon.width c1.sizeW
             | none => .ok none) with
      | .error e => .error e
      | .ok wPx0 =>
      match (match dictGet preset "height" with
             | some h => computePx (some h) "y" mon.height c1.sizeH
             | none => .ok none) with
      | .error e => .error e
      | .ok hPx0 =>
      match env.client2 with
      | none => .ok t0
      | some c2 =>
        -- if W_px is None: W_px = cur_w (and the same for H_px)
        let wPx := match wPx0 with | none => some c2.sizeW | some v => some v
        let hPx := match hPx0 with | none => some c2.sizeH | some v => some v
        let t1 := match wPx, hPx with
                  | some w, some h => t0 ++ [Cmd.resizewindowpixel w h addr]
                  | _, _ => t0
        match env.client3 with
        | none => .ok t1
        | some c3 =>
          match (match dictGet preset "x" with
                 | some sx =>
                   (computePx (some sx) "x" mon.width c3.sizeW).map
                     (fun px => Option.map (fun v => mon.x + v) px)
                 | none =>
                   .ok (if dictGet preset "anchor" = some "left" then some mon.x
                    else if dictGet preset "anchor" = some "right" then
                      some (mon.x + mon.width - c3.sizeW)
                    else if dictGet preset "anchor" = some "center" then
                      some (mon.x + Int.fdiv mon.width 2 - Int.fdiv c3.sizeW 2)
                    else none)) with
          | .error e => .error e
          | .ok finalX =>
          match (match dictGet preset "y" with
                 | some sy =>
                   (computePx (some sy) "y" mon.height c3.sizeH).map
                     (fun py => Option.map (fun v => mon.y + v) py)
                 | none =>
                   .ok (if dictGet preset "anchor" = some "top" then some mon.y
                    else if dictGet preset "anchor" = some "bottom" then
                      some (mon.y + mon.height - c3.sizeH)
                    else if dictGet preset "anchor" = some "center" then
                      some (mon.y + Int.fdiv mon.height 2 - Int.fdiv c3.sizeH 2)
                    else none)) with
          | .error e => .error e
          | .ok finalY =>
          let t2 := match finalX, finalY with
                    | none, none => t1
                    | fx, fy =>
                      t1 ++ [Cmd.movewindowpixel (fx.getD c3.atX) (fy.getD c3.atY) addr]
          let snap := pyLower ((dictGet preset "snap").getD "") = "true"
          if snap then
            match env.client4 with
            | none => .ok t2
            | some c4 => .ok (t2 ++ snapStep mon c4 addr)
          else .ok t2

deriving instance DecidableEq for Except

/-- ASCII uppercase-letter test (used to state that normalized addresses
contain no uppercase letters). -/
def isAsciiUpper (c : Char) : Bool := 65 ≤ c.toNat && c.toNat ≤ 90

/-- A healthy compositor environment: one monitor `0` at the origin sized
1920×1080, and a 300×300 window at (100, 100) present at every query. -/
def envSteady : Env :=
  { client1 := some ⟨0, 100, 100, 300, 300⟩
  , monitors := [⟨0, 0, 0, 1920, 1080⟩]
  , client2 := some ⟨0, 100, 100, 300, 300⟩
  , client3 := some ⟨0, 100, 100, 300, 300⟩
  , client4 := some ⟨0, 100, 100, 300, 300⟩ }

/-- Like `envSteady`, but the window sits at (1900, 50) when the snap
step re-fetches it (partially off the right monitor edge). -/
def envOffEdge : Env :=
  { envSteady with client4 := some ⟨0, 1900, 50, 300, 300⟩ }

/-- Like `envSteady`, but the window has vanished by the re-fetch that
follows the resize step. -/
def envVanish3 : Env :=
  { envSteady with client3 := none }

set_option maxRecDepth 4000

/-- Helper: `safe_eval` rejects any parsed expression whose walk finds a
node outside `ALLOWED_NODES`, and it does so before the `eval` step is
reached (the instrumentation flag stays `false`). -/
theorem safeEvalT_walk_reject (s : String) (e : PyExpr)
    (hp : parseAst s = some e) (hw : walkAllowed e = false) :
    safeEvalT s = (none, false) := by
  simp [safeEvalT, hp, hw]

/-- Helper: the unfolding of `compute_px` on a present expression. -/
theorem computePx_some (e0 : String) (axis : String) (mon win : ℤ) :
    computePx (some e0) axis mon win =
      if e0.data = [] then .ok none
      else
        let l := pyStrip e0.data
        if l = "width".data then .ok (some win)
        else if l = "height".data then .ok (some (if axis = "x" then win else win))
        else computePxRight l axis mon win := rfl

/-- Helper: when the `right-N%` pattern does not match, that stage falls
through to the `bottom-N%` stage for every axis. -/
theorem computePxRight_nomatch (l : List Char) (axis : String) (mon win : ℤ)
    (h : rightPctMatch l = none) :
    computePxRight l axis mon win = computePxBottom l axis mon win := by
  unfold computePxRight
  rw [h]

/-- Helper: when the `bottom-N%` pattern does not match, that stage falls
through to the plain-percentage stage. -/
theorem computePxBottom_nomatch (l : List Char) (axis : String) (mon win : ℤ)
    (h : bottomPctMatch l = none) :
    computePxBottom l axis mon win = computePxPct l mon win := by
  unfold computePxBottom
  rw [h]

/-- Helper: a bare percentage resolves to `round(pct/100 * mon_dim)`. -/
theorem computePxPct_match (l : List Char) (mon win : ℤ) (p : ℚ)
    (h : pctMatch l = some p) :
    computePxPct l mon win = .ok (some (pyRound (p / 100 * (mon : ℚ)))) := by
  unfold computePxPct
  rw [h]

/-- Helper: an ASCII digit is not Python whitespace. -/
theorem isDig_not_space (c : Char) (h : isDig c = true) : isPySpace c = false := by
  cases ht : isPySpace c
  · rfl
  · exfalso
    unfold isPySpace at ht
    simp only [Bool.or_eq_true, decide_eq_true_eq] at ht
    rcases ht with ((((h1 | h1) | h1) | h1) | h1) | h1 <;> subst h1 <;>
      exact absurd h (by decide)

/-- Helper: `dropWhile` is the identity when the predicate never holds. -/
theorem dropWhile_of_all_false {p : Char → Bool} :
    ∀ l : List Char, (∀ c ∈ l, p c = false) → l.dropWhile p = l
  | [], _ => rfl
  | c :: t, h => by
    have hc := h c (List.mem_cons_self c t)
    simp [List.dropWhile, hc]

/-- Helper: `takeWhile` is the identity when the predicate always holds. -/
theorem takeWhile_of_all_true {p : Char → Bool} :
    ∀ l : List Char, (∀ c ∈ l, p c = true) → l.takeWhile p = l
  | [], _ => rfl
  | c :: t, h => by
    have hc := h c (List.mem_cons_self c t)
    simp only [List.takeWhile, hc]
    exact congrArg (c :: ·)
      (takeWhile_of_all_true t (fun d hd => h d (List.mem_cons_of_mem c hd)))

/-- Helper: `dropWhile` drops everything when the predicate always holds. -/
theorem dropWhile_of_all_true {p : Char → Bool} :
    ∀ l : List Char, (∀ c ∈ l, p c = true) → l.dropWhile p = []
  | [], _ => rfl
  | c :: t, h => by
    have hc := h c (List.mem_cons_self c t)
    simp only [List.dropWhile, hc]
    exact dropWhile_of_all_true t (fun d hd => h d (List.mem_cons_of_mem c hd))

/-- Helper: stripping a digit string is the identity. -/
theorem pyStrip_digits (l : List Char) (h : l.all isDig = true) : pyStrip l = l := by
  have hall : ∀ c ∈ l, isDig c = true := by
    intro c hc
    exact List.all_eq_true.1 h c hc
  have h1 : l.dropWhile isPySpace = l :=
    dropWhile_of_all_false l (fun c hc => isDig_not_space c (hall c hc))
  have h2 : l.reverse.dropWhile isPySpace = l.reverse :=
    dropWhile_of_all_false l.reverse
      (fun c hc => isDig_not_space c (hall c (List.mem_reverse.1 hc)))
  unfold pyStrip
  rw [h1, h2, List.reverse_reverse]

/-- Helper: `span isDig` consumes a digit string entirely. -/
theorem span_of_all_digits (l : List Char) (h : l.all isDig = true) :
    l.span isDig = (l, []) := by
  have hall : ∀ c ∈ l, isDig c = true := fun c hc => List.all_eq_true.1 h c hc
  rw [List.span_eq_take_drop, takeWhile_of_all_true l hall, dropWhile_of_all_true l hall]

/-- Helper: the decimal matcher on a pure digit string consumes it all. -/
theorem decimalNum_digits (l : List Char) (hne : l ≠ []) (h : l.all isDig = true) :
    decimalNum l = some ((digitsToNat l : ℚ), []) := by
  unfold decimalNum
  rw [span_of_all_digits l h]
  simp [hne]

/-- Helper: a pure digit string is not a percentage. -/
theorem pctMatch_digits (l : List Char) (hne : l ≠ []) (h : l.all isDig = true) :
    pctMatch l = none := by
  unfold pctMatch
  rw [decimalNum_digits l hne h]

/-- Helper: a pure digit string matches the plain-pixel regex with its
numeric value. -/
theorem intMatch_digits (l : List Char) (hne : l ≠ []) (h : l.all isDig = true) :
    intMatch l = some ((digitsToNat l : ℤ)) := by
  unfold intMatch
  rw [if_pos ⟨hne, h⟩]

/-- Helper: a pure digit string does not match the `right-N%` shorthand. -/
theorem rightPctMatch_digits (l : List Char) (h : l.all isDig = true) :
    rightPctMatch l = none := by
  unfold rightPctMatch
  split
  · next rest =>
    exfalso
    simp only [List.all_cons, Bool.and_eq_true] at h
    exact absurd h.1 (by decide)
  · rfl

/-- Helper: a pure digit string does not match the `bottom-N%` shorthand. -/
theorem bottomPctMatch_digits (l : List Char) (h : l.all isDig = true) :
    bottomPctMatch l = none := by
  unfold bottomPctMatch
  split
  · next rest =>
    exfalso
    simp only [List.all_cons, Bool.and_eq_true] at h
    exact absurd h.1 (by decide)
  · rfl

/-- Helper: ASCII lowering never yields an uppercase letter. -/
theorem pyLowerChar_not_upper (c : Char) : isAsciiUpper (pyLowerChar c) = false := by
  unfold pyLowerChar
  split
  · next h =>
    have hv : (c.toNat + 32).isValidChar := Or.inl (by omega)
    have ht : (Char.ofNat (c.toNat + 32)).toNat = c.toNat + 32 := by
      rw [Char.ofNat, dif_pos hv]
      simp [Char.ofNatAux, Char.toNat, UInt32.ofNat', UInt32.toNat]
    simp [isAsciiUpper, ht]
    omega
  · next h =>
    simp only [isAsciiUpper]
    simp only [Bool.and_eq_false_iff, decide_eq_false_iff_not]
    omega

/-- Helper: a lowered character list contains no uppercase letters. -/
theorem lower_list_not_upper (t : List Char) :
    (t.map pyLowerChar).all (fun c => ! isAsciiUpper c) = true := by
  rw [List.all_map]
  apply List.all_eq_true.2
  intro c hc
  simp only [Function.comp_apply, pyLowerChar_not_upper]
  rfl

/-- Helper: a `dict` assignment is observable at its key. -/
theorem dictGet_dictSet {β : Type} (d : PyDict β) (k : String) (v : β) :
    dictGet (dictSet d k v) k = some v := by
  induction d with
  | nil => simp [dictSet, dictGet]
  | cons kv t ih =>
    obtain ⟨a, b⟩ := kv
    by_cases h : a = k
    · simp [dictSet, dictGet, h]
    · simp [dictSet, dictGet, h, ih]

/-- Claim C1: every input whose parse tree references a name, calls a
function, or uses control flow (all of which make `walkAllowed` false) is
rejected by AST-node inspection before any evaluation is attempted —
`safe_eval` returns no value and the evaluation step is never reached;
in particular `__import__('os')` parses to a `Call` of the name
`__import__`, is rejected unevaluated, and `compute_px` yields no value
for it. -/
theorem c1_reject_before_eval :
    (∀ (s : String) (e : PyExpr), parseAst s = some e → walkAllowed e = false →
      safeEvalT s = (none, false)) ∧
    parseAst "__import__('os')" =
      some (.callE (.nameE "__import__") [.constE (.strV "os")]) ∧
    safeEvalT "__import__('os')" = (none, false) ∧
    computePx (some "__import__('os')") "x" 1000 100 = .ok none := by
  refine ⟨safeEvalT_walk_reject, by rfl, by decide!, by decide!⟩

/-- Witness for C1: the name expression `foo` is rejected with no
evaluation attempted. -/
theorem c1_reject_before_eval_witness :
    safeEvalT "foo" = (none, false) :=
  c1_reject_before_eval.1 "foo" (.nameE "foo") (by rfl) (by decide!)

/-- Claim C2: the concrete evaluator identities — `50%` of a 1000-pixel
monitor is 500 whatever the axis and window size; `120` is 120 pixels
for any monitor; `width` is the window dimension; `right-5%` on axis x
with monitor 1920 and window 800 is 1024; `95%-width` with monitor 1920
and window 300 is 1524. -/
theorem c2_expression_identities :
    (∀ (axis : String) (win : ℤ),
      computePx (some "50%") axis 1000 win = .ok (some 500)) ∧
    (∀ (axis : String) (mon win : ℤ),
      computePx (some "120") axis mon win = .ok (some 120)) ∧
    (∀ (axis : String) (mon : ℤ),
      computePx (some "width") axis mon 300 = .ok (some 300)) ∧
    computePx (some "right-5%") "x" 1920 800 = .ok (some 1024) ∧
    computePx (some "95%-width") "x" 1920 300 = .ok (some 1524) := by
  refine ⟨fun axis win => ?_, fun axis mon win => by rfl, fun axis mon => by rfl,
    by decide!, by decide!⟩
  show computePxRight ['5', '0', '%'] axis 1000 win = .ok (some 500)
  rw [computePxRight_nomatch _ _ _ _ (by rfl), computePxBottom_nomatch _ _ _ _ (by rfl),
    computePxPct_match _ _ _ 50 (by rfl)]
  decide!

/-- Claim C3 (code bug): a preset with neither `width` nor `height` —
here the empty preset produced for an unknown preset name — still causes
a `resizewindowpixel` dispatch, resizing the window to its current size;
the `else`-branch that would skip the resize is unreachable, because
the `None` fallbacks run first. -/
theorem c3_empty_preset_still_resizes :
    mergedPreset "nosuchpreset" [] = [] ∧
    applyPreset "abc" "nosuchpreset" [] envSteady =
      .ok [Cmd.setfloating "0xabc", Cmd.resizewindowpixel 300 300 "0xabc"] := by
  exact ⟨by decide!, by decide!⟩

/-- Claim C4: the apply operation aborts without further mutation when
the initial window lookup fails (no commands at all), when the monitor
lookup fails (no commands at all), and when the re-fetch after the
resize step reports the window absent (no move command is ever
dispatched). -/
theorem c4_abort_on_missing_state (addr name : String) (cfg : PyDict Preset) (env : Env) :
    (env.client1 = none → applyPreset addr name cfg env = .ok []) ∧
    (∀ c1, env.client1 = some c1 → getMonitorById env.monitors c1.monitor = none →
      applyPreset addr name cfg env = .ok []) ∧
    (env.client3 = none → ∀ cmds, applyPreset addr name cfg env = .ok cmds →
      ∀ x y a, Cmd.movewindowpixel x y a ∉ cmds) := by
  refine ⟨fun h => ?_, fun c1 h1 h2 => ?_, fun h3 cmds hok x y a => ?_⟩
  · simp only [applyPreset, h]
  · simp only [applyPreset, h1, h2]
  · cases hc1 : env.client1 with
    | none =>
      simp only [applyPreset, hc1] at hok
      cases hok
      simp
    | some c1 =>
      cases hmon : getMonitorById env.monitors c1.monitor with
      | none =>
        simp only [applyPreset, hc1, hmon] at hok
        cases hok
        simp
      | some mon =>
        simp only [applyPreset, hc1, hmon] at hok
        cases hw : (match dictGet (mergedPreset name cfg) "width" with
                    | some w => computePx (some w) "x" mon.width c1.sizeW
                    | none => Except.ok none) with
        | error e =>
          rw [hw] at hok
          exact Except.noConfusion hok
        | ok w0 =>
          rw [hw] at hok
          cases hh : (match dictGet (mergedPreset name cfg) "height" with
                      | some h => computePx (some h) "y" mon.height c1.sizeH
                      | none => Except.ok none) with
          | error e =>
            rw [hh] at hok
            exact Except.noConfusion hok
          | ok h0 =>
            rw [hh] at hok
            cases hc2 : env.client2 with
            | none =>
              rw [hc2] at hok
              cases hok
              simp
            | some c2 =>
              rw [hc2, h3] at hok
              cases w0 <;> cases h0 <;>
                simp only [] at hok <;> cases hok <;> simp

/-- Witness for C4: with the window vanished after the resize step, the
run stops at `[setfloating, resizewindowpixel]` and no move command is
among the dispatched commands. -/
theorem c4_abort_on_missing_state_witness :
    Cmd.movewindowpixel 3 4 "q" ∉
      [Cmd.setfloating "0xabc", Cmd.resizewindowpixel 300 300 "0xabc"] :=
  (c4_abort_on_missing_state "abc" "nosuchpreset" [] envVanish3).2.2 rfl
    [Cmd.setfloating "0xabc", Cmd.resizewindowpixel 300 300 "0xabc"] (by decide!) 3 4 "q"

/-- Claim C5: when the window fits the monitor, the snap step clamps the
current position componentwise into
`[monitor.x, monitor.x + monitor.width − window.width] ×
 [monitor.y, monitor.y + monitor.height − window.height]` and issues one
move mutation exactly when the clamped position differs from the current
one; concretely, a window at (1900, 50) of size 300×300 on monitor
(0, 0, 1920, 1080) is moved to (1620, 50) by a full apply run with a
snap-only preset. -/
theorem c5_snap_clamp :
    (∀ (mon : Monitor) (c : Client) (addr : String),
      c.sizeW ≤ mon.width → c.sizeH ≤ mon.height →
      snapStep mon c addr =
        if (if c.atX < mon.x then mon.x
            else if mon.x + mon.width - c.sizeW < c.atX then mon.x + mon.width - c.sizeW
            else c.atX) = c.atX ∧
           (if c.atY < mon.y then mon.y
            else if mon.y + mon.height - c.sizeH < c.atY then mon.y + mon.height - c.sizeH
            else c.atY) = c.atY
        then []
        else [Cmd.movewindowpixel
          (if c.atX < mon.x then mon.x
           else if mon.x + mon.width - c.sizeW < c.atX then mon.x + mon.width - c.sizeW
           else c.atX)
          (if c.atY < mon.y then mon.y
           else if mon.y + mon.height - c.sizeH < c.atY then mon.y + mon.height - c.sizeH
           else c.atY) addr]) ∧
    applyPreset "abc" "snaponly" [("snaponly", [("snap", "true")])] envOffEdge =
      .ok [Cmd.setfloating "0xabc", Cmd.resizewindowpixel 300 300 "0xabc",
           Cmd.movewindowpixel 1620 50 "0xabc"] := by
  refine ⟨fun mon c addr hw hh => ?_, by decide!⟩
  unfold snapStep
  have hx : max mon.x (min c.atX (mon.x + mon.width - c.sizeW)) =
      (if c.atX < mon.x then mon.x
       else if mon.x + mon.width - c.sizeW < c.atX then mon.x + mon.width - c.sizeW
       else c.atX) := by
    split_ifs <;> omega
  have hy : max mon.y (min c.atY (mon.y + mon.height - c.sizeH)) =
      (if c.atY < mon.y then mon.y
       else if mon.y + mon.height - c.sizeH < c.atY then mon.y + mon.height - c.sizeH
       else c.atY) := by
    split_ifs <;> omega
  rw [hx, hy]
  by_cases h1 : (if c.atX < mon.x then mon.x
      else if mon.x + mon.width - c.sizeW < c.atX then mon.x + mon.width - c.sizeW
      else c.atX) = c.atX <;>
    by_cases h2 : (if c.atY < mon.y then mon.y
        else if mon.y + mon.height - c.sizeH < c.atY then mon.y + mon.height - c.sizeH
        else c.atY) = c.atY <;>
    simp [h1, h2]

/-- Witness for C5: the clamp at the concrete off-edge window issues one
move to (1620, 50). -/
theorem c5_snap_clamp_witness :
    snapStep ⟨0, 0, 0, 1920, 1080⟩ ⟨0, 1900, 50, 300, 300⟩ "0xabc" =
      [Cmd.movewindowpixel 1620 50 "0xabc"] :=
  (c5_snap_clamp.1 ⟨0, 0, 0, 1920, 1080⟩ ⟨0, 1900, 50, 300, 300⟩ "0xabc"
    (by decide) (by decide)).trans (by decide)

/-- Claim C6 (code bug): `compute_px` is not total — the expression
`1e400` parses to the float literal `inf`, passes the AST walk, survives
`safe_eval` as an infinite value, and `int(round(val))` then raises an
uncaught `OverflowError` that aborts the whole process instead of
yielding "no value". -/
theorem c6_inf_expression_aborts :
    computePx (some "1e400") "x" 1000 100 = .error "OverflowError" := by
  decide!

/-- Counterexample for C7: the bit-shift expression `1<<3` does *not*
fail — `ast.LShift` is in `ALLOWED_NODES`, so it evaluates to 8. -/
theorem c7_shift_counterexample :
    computePx (some "1<<3") "x" 1000 100 = .ok (some 8) := by decide!

/-- Claim C7 as amended: the accepted node set also contains the shift
operators `<<` and `>>` (so `1<<3` evaluates to 8), while the bitwise
`&`, `|`, `^` and every other node kind outside `ALLOWED_NODES` (names,
calls, comparisons, conditionals) still make evaluation fail to
"no value". -/
theorem c7_amended_grammar :
    computePx (some "1<<3") "x" 1000 100 = .ok (some 8) ∧
    computePx (some "1&3") "x" 1000 100 = .ok none ∧
    (∀ (s : String) (e : PyExpr), parseAst s = some e → walkAllowed e = false →
      safeEval s = none) := by
  refine ⟨by decide!, by decide!, fun s e hp hw => ?_⟩
  unfold safeEval
  rw [safeEvalT_walk_reject s e hp hw]

/-- Witness for C7 (amended): the bitwise-and expression `1&3` is
rejected by the walk. -/
theorem c7_amended_grammar_witness : safeEval "1&3" = none :=
  c7_amended_grammar.2.2 "1&3"
    (.binE .bitand (.constE (.intV 1)) (.constE (.intV 3))) (by rfl) (by decide!)

/-- Counterexample for C8: the `info` command's address normalization
does not lowercase — `56AB` becomes `0x56AB`, not `0x56ab`. -/
theorem c8_info_counterexample :
    normAddrInfo "56AB" = "0x56AB" ∧ normAddrInfo "56AB" ≠ "0x56ab" := by
  refine ⟨by decide!, by decide!⟩

/-- Claim C8 as amended: only the `apply` path normalizes the address to
lowercase with a `0x` prefix (its result never contains an uppercase
letter); the `info` path merely prepends `0x` when the case-sensitive
prefix is absent, so `0X56AB` becomes `0x0X56AB` for `info` but
`0x56ab` for `apply`. -/
theorem c8_amended_normalization :
    (∀ s : String, ((normAddrApply s).data.all (fun c => ! isAsciiUpper c)) = true) ∧
    normAddrApply "0X56AB" = "0x56ab" ∧
    normAddrInfo "0X56AB" = "0x0X56AB" := by
  refine ⟨fun s => ?_, by decide!, by decide!⟩
  unfold normAddrApply
  split
  · exact lower_list_not_upper s.data
  · rw [String.data_append]
    rw [List.all_append]
    rw [Bool.and_eq_true]
    exact ⟨by decide, lower_list_not_upper s.data⟩

/-- Counterexample for C9: a resolved preset field need not be
non-negative — the expression `0-5` resolves to −5. -/
theorem c9_negative_counterexample :
    computePx (some "0-5") "x" 1000 100 = .ok (some (-5)) := by decide!

/-- Claim C9 as amended: every resolved field is an integer, and a field
given as a plain digit literal always resolves to its (non-negative)
numeric value, but composite arithmetic expressions may resolve to
negative integers. -/
theorem c9_amended_digit_fields (s : String) (axis : String) (mon win : ℤ)
    (hne : s.data ≠ []) (h : s.data.all isDig = true) :
    computePx (some s) axis mon win = .ok (some ((digitsToNat s.data : ℤ))) ∧
    0 ≤ ((digitsToNat s.data : ℤ)) := by
  have hw : s.data ≠ "width".data := by
    intro he
    rw [he] at h
    exact absurd h (by decide)
  have hh : s.data ≠ "height".data := by
    intro he
    rw [he] at h
    exact absurd h (by decide)
  refine ⟨?_, Int.natCast_nonneg _⟩
  rw [computePx_some, if_neg hne, pyStrip_digits s.data h]
  simp only [if_neg hw, if_neg hh]
  rw [computePxRight_nomatch _ _ _ _ (rightPctMatch_digits _ h),
    computePxBottom_nomatch _ _ _ _ (bottomPctMatch_digits _ h)]
  unfold computePxPct
  rw [pctMatch_digits _ hne h]
  unfold computePxInt
  rw [intMatch_digits _ hne h]

/-- Witness for C9 (amended): the digit literal `7` resolves to 7 ≥ 0. -/
theorem c9_amended_digit_fields_witness :
    computePx (some "7") "x" 1000 100 = .ok (some 7) ∧ (0 : ℤ) ≤ 7 :=
  c9_amended_digit_fields "7" "x" 1000 100 (by decide) (by decide)

/-- Claim C10: a section header (re)sets its preset to the empty mapping.
In any parser state, processing a header line for `name` leaves
`presets[name] = {}`, so a duplicate section discards every key of the
earlier occurrence; end to end, `[a] k=1 [b] x=2 [a] j=2` yields
`a = {j: 2}` with `k` gone. -/
theorem c10_duplicate_section_resets :
    (∀ (ps : PyDict Preset) (cur : Option String) (raw : String) (name : String),
      headerParse (pyStrip raw.data) = some name →
      dictGet (cfgStep (ps, cur) raw).1 name = some []) ∧
    dictGet (loadPresetsFromCfg ["[a]", "k=1", "[b]", "x=2", "[a]", "j=2"]) "a" =
      some [("j", "2")] := by
  refine ⟨fun ps cur raw name h => ?_, by decide!⟩
  by_cases hc : 3 ≤ (pyStrip raw.data).length ∧ (pyStrip raw.data).head? = some '[' ∧
      (pyStrip raw.data).getLast? = some ']'
  · have h1 : pyStrip raw.data ≠ [] := by
      intro he
      rw [he] at hc
      exact absurd hc.2.1 (by decide)
    have h2 : ¬ ((pyStrip raw.data).head? = some '#') := by
      intro he
      rw [he] at hc
      exact absurd hc.2.1 (by decide)
    unfold cfgStep
    rw [if_neg (fun hor => hor.elim h1 h2), h]
    exact dictGet_dictSet ps name []
  · exfalso
    unfold headerParse at h
    rw [if_neg hc] at h
    exact Option.noConfusion h

/-- Witness for C10: re-opening section `dup` resets it to the empty
mapping, discarding its earlier `k` key. -/
theorem c10_duplicate_section_resets_witness :
    dictGet (cfgStep ([("dup", [("k", "1")])], some "dup") "[dup]").1 "dup" = some [] :=
  c10_duplicate_section_resets.1 [("dup", [("k", "1")])] (some "dup") "[dup]" "dup" (by rfl)
